import Mathlib

/-!
Verification of the mapping back-end of PL-SLAM-plucker (`src/mapHandler.cpp`).

The development shallowly embeds the data structures and operations of the
map handler: the covisibility count matrix `full_graph` is a function
`ℕ → ℕ → ℤ`, C++ `double` quantities are modelled as `ℚ`, C++ `int` as `ℤ`
or `ℕ`, and pointer slots (`nullptr` = deleted) as `Option`.  Each
definition's doc comment cites the mapHandler.cpp lines it embeds.
-/

namespace PLSLAM

/-- The covisibility count matrix `full_graph` (a `vector<vector<int>>` in the
source), modelled as a total function on keyframe indices. -/
def Graph : Type := Nat → Nat → Int

/-- The paired cell update `full_graph[i][j] += d; full_graph[j][i] += d`
that every mutation of the matrix in mapHandler.cpp performs (e.g. lines
322-324, 2251-2252, 5632-5633).  When `i = j` the single cell receives `2*d`,
exactly as the two sequential C++ increments do. -/
def bumpPair (g : Graph) (i j : Nat) (d : Int) : Graph :=
  fun a b =>
    g a b + (if a = i ∧ b = j then d else 0) + (if a = j ∧ b = i then d else 0)

/-- Symmetry of the covisibility matrix. -/
def Symm (g : Graph) : Prop := ∀ i j, g i j = g j i

-- ---------------------------------------------------------------------------
-- Loop-closure edge bookkeeping (claims about loopClosureOptimization* tails
-- and loopClosureFuseLandmarks)
-- ---------------------------------------------------------------------------

/-- A pending loop edge as recorded in `lc_idx_list` (a `Vector3i`):
component 0 the earlier keyframe, component 1 the current keyframe, and
component 2 the "unoptimized" marker (`1` = pending, `0` = already
optimized); see lines 4082-4087. -/
structure LoopEdge where
  kf_prev : Nat
  kf_curr : Nat
  unopt : Int
deriving DecidableEq, Repr

/-- Lines 5521-5523 (and identically 5289-5291): the loop marking every
`lc_idx_list` edge as optimized, `(*it)(2) = 0`. -/
def markEdgesOptimized (es : List LoopEdge) : List LoopEdge :=
  es.map (fun e => { e with unopt := 0 })

/-- Lines 5538-5543 and 5662-5667: `loopClosureFuseLandmarks` enters the
per-correspondence fusion body of an edge only under the guard
`lc_idx_list[lc_idx](2) == 1` ("if not already optimized"); the returned
list holds exactly the edges whose correspondences the fusion loops
process. -/
def fuseLandmarksProcessedEdges (es : List LoopEdge) : List LoopEdge :=
  es.filter (fun e => e.unopt == 1)

/-- Lines 5521-5528 of `loopClosureOptimizationCovGraphG2O`: first all
markers are cleared, then `loopClosureFuseLandmarks()` is called on the
resulting list; the value is the list of edges whose correspondences that
call actually fuses. -/
def lcOptimizationTailProcessed (es : List LoopEdge) : List LoopEdge :=
  fuseLandmarksProcessedEdges (markEdgesOptimized es)

-- ---------------------------------------------------------------------------
-- Geometric verification decision of computeRelativePoseRobustGN
-- ---------------------------------------------------------------------------

/-- Lines 4987-5023 of `computeRelativePoseRobustGN`: the acceptance
decision.  Inputs: the thresholds `SlamConfig::lcRes/lcUnc/lcInl/lcTrs/lcRot`
(configuration values not defined in mapHandler.cpp), the final normalized
error `e`, the largest eigenvalue `DT_cov_eig(5)` of the inverse Hessian,
the inlier count `N_inl` and feature count `N`, and the translation and
rotation magnitudes `t` and `r` of the estimated pose.  Line 5012 computes
the inlier-ratio condition into `lc_inl`, and line 5014 then overwrites
`lc_inl` with `true`; line 5023 returns the conjunction. -/
def lcDecision (lcRes lcUnc lcInl lcTrs lcRot : ℚ) (e eig : ℚ)
    (N_inl N : Nat) (t r : ℚ) : Bool :=
  let lc_res : Bool := decide (e < lcRes)
  let lc_unc : Bool := decide (eig < lcUnc)
  let ratio_inliers : ℚ := (N_inl : ℚ) / (N : ℚ)
  let _lc_inl0 : Bool := decide (ratio_inliers > lcInl)
  -- line 5014: `lc_inl = true;` discards the value just computed
  let lc_inl : Bool := true
  let lc_trs : Bool := decide (t < lcTrs)
  let lc_rot : Bool := decide (r < lcRot)
  lc_res && lc_unc && lc_inl && lc_trs && lc_rot

/-- The computed inlier-ratio condition of line 5012 on its own (the value
the dead store of line 5014 discards). -/
def lcInlierRatioCond (lcInl : ℚ) (N_inl N : Nat) : Bool :=
  decide ((N_inl : ℚ) / (N : ℚ) > lcInl)

-- ---------------------------------------------------------------------------
-- Error normalization of levMarquardtOptimizationLBAForPluker
-- ---------------------------------------------------------------------------

/-- One `Vector6i` entry of `pt_obs_list` / `ls_obs_list` (lines 1645-1651):
landmark map index, landmark local index, observation index, keyframe map
index, keyframe local index, inlier flag. -/
structure Obs6 where
  lm_idx_map : Int
  lm_idx_loc : Int
  lm_idx_obs : Int
  kf_idx_map : Int
  kf_idx_loc : Int
  inlier : Int
deriving DecidableEq, Repr, Inhabited

/-- The four counters of `levMarquardtOptimizationLBAForPluker`. -/
structure LBACounters where
  Npt : Int
  Npt_obs : Int
  Nls : Int
  Nls_obs : Int
deriving DecidableEq, Repr

/-- Lines 1641-1644 and 1731-1733: `int Npt = 0, Npt_obs = 0;` with
`Npt = pt_obs_list.back()(1)+1` when the list is nonempty, and likewise
`Nls`; `Npt_obs` and `Nls_obs` are initialised to `0`. -/
def lbaPlukerInitCounters (pt_obs_list ls_obs_list : List Obs6) : LBACounters where
  Npt := if pt_obs_list ≠ [] then (pt_obs_list.getLastD default).lm_idx_loc + 1 else 0
  Npt_obs := 0
  Nls := if ls_obs_list ≠ [] then (ls_obs_list.getLastD default).lm_idx_loc + 1 else 0
  Nls_obs := 0

/-- The effect of one iteration of the observation loops (lines 1645-1726
for points, 1734-1844 for lines) on the pair (accumulated error, counters):
the weighted squared residual of the observation (passed here as the
already-computed contribution `w * ‖err_i‖²`) is added to `err`
(lines 1707/1716, 1825/1834); the body never mentions `Npt_obs` or
`Nls_obs`, so the counters pass through unchanged. -/
def lbaObsLoopStep (s : ℚ × LBACounters) (contrib : ℚ) : ℚ × LBACounters :=
  (s.1 + contrib, s.2)

/-- Line 1849 / 2108: the divisor of the normalization
`err /= (Npt_obs+Nls_obs)`. -/
def lbaPlukerNormDivisor (c : LBACounters) : Int := c.Npt_obs + c.Nls_obs

/-- The accumulation phase of `levMarquardtOptimizationLBAForPluker` as far
as the counters and the error are concerned (lines 1641-1849): initialise
the counters, fold the point loop then the line loop over the per-observation
error contributions, and read off the divisor used at line 1849. -/
def lbaPlukerErrAndDivisor (ptContribs lsContribs : List ℚ)
    (pt_obs_list ls_obs_list : List Obs6) : ℚ × Int :=
  let c := lbaPlukerInitCounters pt_obs_list ls_obs_list
  let s1 := ptContribs.foldl lbaObsLoopStep ((0 : ℚ), c)
  let s2 := lsContribs.foldl lbaObsLoopStep s1
  (s2.1, lbaPlukerNormDivisor s2.2)

-- ---------------------------------------------------------------------------
-- Write-back of Plucker line landmarks after the local optimizer converges
-- ---------------------------------------------------------------------------

/-- The 4-dimensional orthonormal line parameter block (a `Vector4d`). -/
structure Orth4 where
  a : ℚ
  b : ℚ
  c : ℚ
  d : ℚ
deriving DecidableEq, Repr

/-- Componentwise difference of orthonormal blocks: line 2190,
`Vector4d DX = X.block(6*Nkf+3*Npt+4*i,0,4,1) - map_lines[ls_list[i]]->orthNDw`. -/
def orthSub (x o : Orth4) : Orth4 :=
  ⟨x.a - o.a, x.b - o.b, x.c - o.c, x.d - o.d⟩

/-- Lines 2186-2198 of `levMarquardtOptimizationLBAForPluker`: the value
written to `map_lines[ls_list[i]]->NDw` for a local line landmark.
`toPluker` stands for `MapLine::changeOrthToPluker` (defined outside
mapHandler.cpp), `xblk` is the landmark's optimized orthonormal block of the
final state vector `X`, and `orthStored` the landmark's stored `orthNDw`.
The source computes `DX = xblk - orthStored` (line 2190) and then passes
`DX` — not `xblk` — to the conversion:
`Vector6d newPluker = MapLine::changeOrthToPluker(DX);` (line 2194). -/
def lbaPlukerLineWriteBack (toPluker : Orth4 → Orth4) (xblk orthStored : Orth4) : Orth4 :=
  toPluker (orthSub xblk orthStored)

-- ---------------------------------------------------------------------------
-- Accept/reject step of the Levenberg-Marquardt iteration loop
-- ---------------------------------------------------------------------------

/-- The optimizer's parameter vector `X`, split into its blocks in the fixed
order of the source: `6*Nkf` pose coordinates (one block per non-fixed local
keyframe), then the Euclidean point-landmark coordinates, then the line
parameter blocks.  The pose-block type `P` and line-block type `L` are
abstract (the source manipulates them through `expmap_se3`/`logmap_se3` and
`updateOrthCoord`, which are defined outside mapHandler.cpp). -/
structure LMParams (P L : Type) where
  poses : List P
  pts : List ℚ
  orths : List L

/-- Application of a solved step `DX` to the parameter vector, lines
2128-2150 (Plucker variant) and 2815-2831 (endpoint variant): each pose
block is updated by the manifold composition
`Tcurr = Tprev * inverse_se3(expmap_se3(DX_blk))` (abstracted as
`poseUpd`), each Euclidean point coordinate by `X(i) += DX(i)`, and each
line block by `updateOrthCoord` (abstracted as `orthUpd`; in the endpoint
variant the line blocks are Euclidean and `orthUpd` is also `+=`). -/
def lmApplyStep {P L : Type} (poseUpd : P → P → P) (orthUpd : L → L → L)
    (X : LMParams P L) (dposes : List P) (dpts : List ℚ) (dorths : List L) :
    LMParams P L where
  poses := List.zipWith poseUpd X.poses dposes
  pts := List.zipWith (fun a b => a + b) X.pts dpts
  orths := List.zipWith orthUpd X.orths dorths

/-- Lines 2110-2151 (Plucker variant; identically 2797-2832): the tail of
one LM iteration after the normalized error `err` of the current parameters
is known.  First the stopping test
`if(abs(err-err_prev) < Config::minErrorChange() || err < Config::minError()) break;`
(modelled as `none`); otherwise the damping update and conditional step
application: `if (err > err_prev) { lambda /= lambda_k; }` with the step NOT
applied, `else { lambda *= lambda_k; ...apply step... }`. -/
def lmIterTail {P L : Type} (minErrorChange minError lambda_k : ℚ)
    (poseUpd : P → P → P) (orthUpd : L → L → L)
    (err err_prev lambda : ℚ) (X : LMParams P L)
    (dposes : List P) (dpts : List ℚ) (dorths : List L) :
    Option (ℚ × LMParams P L) :=
  if |err - err_prev| < minErrorChange ∨ err < minError then
    none
  else if err_prev < err then
    some (lambda / lambda_k, X)
  else
    some (lambda * lambda_k, lmApplyStep poseUpd orthUpd X dposes dpts dorths)

-- ---------------------------------------------------------------------------
-- Landmark culling (removeBadMapLandmarks) and observation pruning
-- ---------------------------------------------------------------------------

/-- A `MapPoint`/`MapLine` landmark as far as these claims need it: the four
parallel per-observation lists (descriptor, 2D observation, viewing
direction, owning keyframe — payloads kept opaque as `Nat`), and the
`local`/`inlier` flags. -/
structure MapLM where
  desc_list : List Nat
  obs_list : List Nat
  dir_list : List Nat
  kf_obs_list : List Nat
  localFlag : Bool
  inlier : Bool
deriving DecidableEq, Repr

/-- Lines 3740-3742 of `removeBadMapLandmarks`: a landmark is culled when it
is not local, its anchoring keyframe `kf_obs_list[0]` is more than 10
keyframes old, and it is either a non-inlier or has fewer than
`SlamConfig::minLMObs()` observations.  (`kf_obs_list[0]` of an empty list
is modelled as `0`; the source would be undefined there.) -/
def removeBadCond (max_kf_idx minLMObs : Int) (p : MapLM) : Bool :=
  (!p.localFlag) && decide (max_kf_idx - (p.kf_obs_list.headD 0 : Int) > 10)
    && ((!p.inlier) || decide ((p.obs_list.length : Int) < minLMObs))

/-- Lines 3732-3813, `removeBadMapLandmarks` (point half; the line half is
identical): every landmark slot satisfying `removeBadCond` is deleted
(`nullptr`), all other slots are kept.  The function body contains no
reference to `full_graph`, so the covisibility matrix is returned
unchanged. -/
def removeBadMapLandmarksModel (max_kf_idx minLMObs : Int)
    (mp : Nat → Option MapLM) (g : Graph) : (Nat → Option MapLM) × Graph :=
  (fun i => match mp i with
    | none => none
    | some p => if removeBadCond max_kf_idx minLMObs p then none else some p,
   g)

/-- Lines 2246-2254 (and 2307-2315, 2930-2938, ...): after an observation of
keyframe `kf_obs` is erased from a landmark, the covisibility matrix is
decremented for every keyframe `idx` remaining in the landmark's
`kf_obs_list` with `kf_obs != idx`:
`full_graph[kf_obs][idx]--; full_graph[idx][kf_obs]--;`. -/
def pruneGraphUpdate (g : Graph) (kf_obs : Nat) (remaining : List Nat) : Graph :=
  remaining.foldl
    (fun gg idx => if idx ≠ kf_obs then bumpPair gg kf_obs idx (-1) else gg) g

-- ---------------------------------------------------------------------------
-- Association-engine matrix increments
-- ---------------------------------------------------------------------------

/-- Lines 322-324 of `matchKF2KFPoints`: on creation of a new landmark from
a match between keyframes `kf1_idx` and `kf2_idx`,
`full_graph[kf2_idx][kf1_idx]++; full_graph[kf1_idx][kf2_idx]++;`. -/
def newLMGraphInc (g : Graph) (kf1_idx kf2_idx : Nat) : Graph :=
  bumpPair g kf2_idx kf1_idx 1

-- ---------------------------------------------------------------------------
-- Loop-closure landmark fusion (loopClosureFuseLandmarks, merge branch)
-- ---------------------------------------------------------------------------

/-- Lines 5617-5634 (points; identically 5764-5782 for lines): the
covisibility update while landmark `B` is fused into landmark `A`.  The
outer loop walks `B`'s observations (`jdx = B.kf_obs_list[iter]`); the inner
loop walks the first `Nobs_lm_prev` entries of `A`'s list — exactly `A`'s
pre-fusion observations, since the entries pushed during the merge sit
beyond that bound — and performs
`full_graph[idx][jdx]++; full_graph[jdx][idx]++;`.
`kfA` is `A`'s pre-fusion `kf_obs_list`, `kfB` is `B`'s. -/
def fuseMergeGraphUpdate (g : Graph) (kfA kfB : List Nat) : Graph :=
  kfB.foldl (fun gg jdx => kfA.foldl (fun g2 idx => bumpPair g2 idx jdx 1) gg) g

/-- Lines 5620-5626 (and 5767-5774 for lines, with the extra `pts_list`):
the merge of landmark `B`'s parallel lists into `A`'s.  The loop iterates
over `B.desc_list`, pushing the descriptor and the entries of the other
lists at the same index; under the parallel-lists invariant this appends
`B`'s lists to `A`'s (the `take` keeps exactly the indices the loop
visits). -/
def fuseConcat (A B : MapLM) : MapLM where
  desc_list := A.desc_list ++ B.desc_list
  obs_list := A.obs_list ++ B.obs_list.take B.desc_list.length
  dir_list := A.dir_list ++ B.dir_list.take B.desc_list.length
  kf_obs_list := A.kf_obs_list ++ B.kf_obs_list.take B.desc_list.length
  localFlag := A.localFlag
  inlier := A.inlier

/-- Pointwise update of a landmark-slot map. -/
def setSlot (mp : Nat → Option MapLM) (i : Nat) (v : Option MapLM) :
    Nat → Option MapLM :=
  fun j => if j = i then v else mp j

/-- Lines 5612-5654: the `lm_idx0 != -1 && lm_idx1 != -1` branch of
`loopClosureFuseLandmarks`.  Under the null guards (both slots resident and
the keyframe's raw stereo feature present, the latter modelled by
`stereoOk`), `B = map_points[lm_idx1]` is concatenated into
`A = map_points[lm_idx0]`, and `B`'s slot is deleted
(`map_points[lm_idx1] = nullptr`, line 5653). -/
def loopFuseMergeSlots (stereoOk : Bool) (mp : Nat → Option MapLM)
    (lm_idx0 lm_idx1 : Nat) : Nat → Option MapLM :=
  match mp lm_idx0, mp lm_idx1 with
  | some A, some B =>
      if stereoOk then
        setSlot (setSlot mp lm_idx0 (some (fuseConcat A B))) lm_idx1 none
      else mp
  | _, _ => mp

-- ---------------------------------------------------------------------------
-- Epipolar gate of matchMap2KFLines
-- ---------------------------------------------------------------------------

/-- Line 894 of `matchMap2KFLines`: the acceptance gate on the two signed
algebraic distances of the projected landmark endpoints to the observed
line equation (`err_ls(0)`, `err_ls(1)`, computed at lines 892-893):
`if( err_ls(0) < SlamConfig::maxKFEpipL() && err_ls(1) < SlamConfig::maxKFEpipL() )`.
The raw signed values are compared — no absolute value is taken. -/
def lineEpipolarGate (maxKFEpipL e0 e1 : ℚ) : Bool :=
  decide (e0 < maxKFEpipL) && decide (e1 < maxKFEpipL)

/-- Lines 894-916: when the gate passes, the landmark receives a new
observation (`addMapLineObservation`, line 905/907); otherwise the body is
skipped (`else --matches`, line 917).  Modelled by its effect on the
landmark's observation-list length. -/
def map2KFLineObsLen (maxKFEpipL e0 e1 : ℚ) (obsLen : Nat) : Nat :=
  if lineEpipolarGate maxKFEpipL e0 e1 then obsLen + 1 else obsLen

-- ---------------------------------------------------------------------------
-- Helper lemmas
-- ---------------------------------------------------------------------------

/-- The observation loops never modify the counter record: a fold of
`lbaObsLoopStep` returns the counters it started from. -/
theorem foldl_obsStep_counters (l : List ℚ) (s : ℚ × LBACounters) :
    (l.foldl lbaObsLoopStep s).2 = s.2 := by
  induction l generalizing s with
  | nil => rfl
  | cons x xs ih => simpa [lbaObsLoopStep] using ih (lbaObsLoopStep s x)

/-- The paired update keeps the matrix symmetric. -/
theorem bumpPair_symm (g : Graph) (i j : Nat) (d : Int) (h : Symm g) :
    Symm (bumpPair g i j d) := by
  intro a b
  simp only [bumpPair, h a b]
  have e1 : (a = i ∧ b = j) ↔ (b = j ∧ a = i) := and_comm
  have e2 : (a = j ∧ b = i) ↔ (b = i ∧ a = j) := and_comm
  rw [if_congr e1 rfl rfl, if_congr e2 rfl rfl]
  ring

/-- An `if` over a conjunction splits into a product of `if`s. -/
theorem ite_and_mul (p q : Prop) [Decidable p] [Decidable q] (d : Int) :
    (if p ∧ q then d else 0) = (if p then d else 0) * (if q then 1 else 0) := by
  by_cases hp : p <;> by_cases hq : q <;> simp [hp, hq]

/-- A fold whose step preserves symmetry preserves symmetry. -/
theorem foldl_preserves_symm {α : Type} (f : Graph → α → Graph)
    (hf : ∀ gg x, Symm gg → Symm (f gg x)) (l : List α) (g : Graph)
    (h : Symm g) : Symm (l.foldl f g) := by
  induction l generalizing g with
  | nil => exact h
  | cons x xs ih => exact ih (f g x) (hf g x h)

-- ---------------------------------------------------------------------------
-- C1
-- ---------------------------------------------------------------------------

/-- Claim C1: when the loop state reaches READY and
`loopClosureOptimizationCovGraphG2O` completes, every pending loop edge
whose unoptimized marker is still set is supposed to have its recorded
correspondences fused by `loopClosureFuseLandmarks`, the marker being
cleared only together with/after that fusion.  The code does the opposite:
lines 5522-5523 clear every marker first, and the fusion call of line 5526
then skips every edge, because its guard (line 5540/5664) requires the
marker still to be `1`.  Evaluated at a single pending edge: before the
tail the fusion would process it, after the marker-clearing loop it
processes nothing. -/
theorem lc_fusion_skipped_marker_cleared_first :
    fuseLandmarksProcessedEdges [⟨3, 7, 1⟩] = [⟨3, 7, 1⟩] ∧
    lcOptimizationTailProcessed [⟨3, 7, 1⟩] = [] := by
  constructor <;> rfl

-- ---------------------------------------------------------------------------
-- C2
-- ---------------------------------------------------------------------------

/-- Claim C2: `computeRelativePoseRobustGN` is supposed to accept only when
all five conditions hold, and in particular to reject every input whose
inlier ratio is at or below `SlamConfig::lcInl()`.  Because line 5014
overwrites the computed `lc_inl` with `true`, an input with inlier ratio 0
(0 inliers out of 10 features, at or below the threshold 1/2, as the second
conjunct witnesses) is nevertheless accepted. -/
theorem lc_decision_accepts_low_inlier_ratio :
    lcDecision 1 1 (1/2) 1 1 0 0 0 10 0 0 = true ∧
    lcInlierRatioCond (1/2) 0 10 = false := by
  constructor
  · norm_num [lcDecision]
  · norm_num [lcInlierRatioCond]

-- ---------------------------------------------------------------------------
-- C3
-- ---------------------------------------------------------------------------

/-- Claim C3: the normalization `err /= (Npt_obs+Nls_obs)` of
`levMarquardtOptimizationLBAForPluker` is claimed never to have a zero
divisor when at least one observation exists.  In fact the divisor is zero
for EVERY input: `Npt_obs` and `Nls_obs` are initialised to 0 (lines
1642/1731) and no statement of the function ever increments them, so the
fold of the observation loops leaves them untouched and line 1849 divides
by zero — in particular under the claim's precondition, as the second
conjunct shows for a run with one point observation. -/
theorem lba_pluker_divisor_always_zero :
    (∀ (ptContribs lsContribs : List ℚ) (pt_obs ls_obs : List Obs6),
      (lbaPlukerErrAndDivisor ptContribs lsContribs pt_obs ls_obs).2 = 0) ∧
    (lbaPlukerErrAndDivisor [1] [] [⟨0, 0, 0, 0, 0, 1⟩] []).2 = 0 := by
  constructor
  · intro pc lc po lo
    have h2 : (lbaPlukerErrAndDivisor pc lc po lo).2
        = lbaPlukerNormDivisor ((lc.foldl lbaObsLoopStep
            (pc.foldl lbaObsLoopStep ((0 : ℚ), lbaPlukerInitCounters po lo))).2) := rfl
    rw [h2, foldl_obsStep_counters, foldl_obsStep_counters]
    rfl
  · rfl

-- ---------------------------------------------------------------------------
-- C4
-- ---------------------------------------------------------------------------

/-- Claim C4: after convergence the stored Plucker coordinates `NDw` are
claimed to equal `changeOrthToPluker` applied to the landmark's optimized
orthonormal block of the final state vector `X`.  The code instead applies
the conversion to `DX`, the DIFFERENCE between that block and the stored
`orthNDw` (lines 2190 and 2194).  Evaluated with the identity conversion at
a landmark whose optimized block equals its stored block `(1,0,0,0)`: the
code writes the conversion of `(0,0,0,0)`, not of `(1,0,0,0)`. -/
theorem lba_pluker_line_writeback_not_from_X :
    lbaPlukerLineWriteBack (fun o => o) ⟨1, 0, 0, 0⟩ ⟨1, 0, 0, 0⟩ = ⟨0, 0, 0, 0⟩ ∧
    lbaPlukerLineWriteBack (fun o => o) ⟨1, 0, 0, 0⟩ ⟨1, 0, 0, 0⟩ ≠
      (fun (o : Orth4) => o) ⟨1, 0, 0, 0⟩ := by
  constructor
  · simp only [lbaPlukerLineWriteBack, orthSub, Orth4.mk.injEq]
    norm_num
  · simp only [lbaPlukerLineWriteBack, orthSub, ne_eq, Orth4.mk.injEq]
    norm_num

-- ---------------------------------------------------------------------------
-- C5
-- ---------------------------------------------------------------------------

/-- Claim C5: in every LM iteration that reaches the damping update (i.e.
the stopping test of lines 2111-2112 did not fire, hypothesis `hnostop`;
with a positive `minErrorChange` this in particular rules out
`err = err_prev`), the step is accepted exactly when the total weighted
error decreased: on a decrease the damping factor is multiplied by
`lambda_k` — a shrink, since the configured ratio lies in `(0,1)` — and the
step is applied (manifold composition on pose blocks, `+=` on Euclidean
blocks, i.e. `lmApplyStep`); otherwise the damping factor is divided by
`lambda_k` — a growth — and the parameter vector is left unchanged. -/
theorem lm_iter_accept_reject {P L : Type} (poseUpd : P → P → P)
    (orthUpd : L → L → L) (mec me k err err_prev lam : ℚ) (X : LMParams P L)
    (dp : List P) (dpt : List ℚ) (dl : List L)
    (hmec : 0 < mec) (hk0 : 0 < k) (hk1 : k < 1) (hlam : 0 < lam)
    (hnostop : ¬(|err - err_prev| < mec ∨ err < me)) :
    err ≠ err_prev ∧
    (err < err_prev →
      lmIterTail mec me k poseUpd orthUpd err err_prev lam X dp dpt dl
        = some (lam * k, lmApplyStep poseUpd orthUpd X dp dpt dl) ∧
      lam * k < lam) ∧
    (err_prev < err →
      lmIterTail mec me k poseUpd orthUpd err err_prev lam X dp dpt dl
        = some (lam / k, X) ∧
      lam < lam / k) := by
  have hne : err ≠ err_prev := by
    intro hEq
    exact hnostop (Or.inl (by rw [hEq, sub_self, abs_zero]; exact hmec))
  have hshrink : lam * k < lam := by
    calc lam * k < lam * 1 := by exact mul_lt_mul_of_pos_left hk1 hlam
    _ = lam := mul_one lam
  refine ⟨hne, ?_, ?_⟩
  · intro hlt
    constructor
    · unfold lmIterTail
      rw [if_neg hnostop, if_neg (not_lt.mpr hlt.le)]
    · exact hshrink
  · intro hgt
    constructor
    · unfold lmIterTail
      rw [if_neg hnostop, if_pos hgt]
    · exact (lt_div_iff₀ hk0).mpr hshrink

/-- Witness for `lm_iter_accept_reject`: the accept case at `err = 3`,
`err_prev = 5`, `minErrorChange = 1`, `minError = 0`, `lambda = 2`,
`lambda_k = 1/2`, over scalar pose and line blocks. -/
theorem lm_iter_accept_reject_witness :
    lmIterTail 1 0 (1/2) (fun (a b : ℚ) => a + b) (fun (a b : ℚ) => a + b)
        3 5 2 ⟨[], [], []⟩ [] [] []
      = some (2 * (1/2),
          lmApplyStep (fun (a b : ℚ) => a + b) (fun (a b : ℚ) => a + b)
            ⟨[], [], []⟩ [] [] []) ∧
    (2 : ℚ) * (1/2) < 2 :=
  (lm_iter_accept_reject (fun a b => a + b) (fun a b => a + b) 1 0 (1/2) 3 5 2
    ⟨[], [], []⟩ [] [] [] (by norm_num) (by norm_num) (by norm_num) (by norm_num)
    (by rw [abs_sub_lt_iff]; norm_num)).2.1 (by norm_num)

-- ---------------------------------------------------------------------------
-- C7
-- ---------------------------------------------------------------------------

/-- Claim C7: symmetry of the covisibility matrix is preserved by every
mutation: the increment on creating a landmark from a keyframe match
(`matchKF2KFPoints`, lines 322-324), the decrement on removing an
observation (lines 2246-2254), and the increments of the loop-closure
fusion merge (lines 5627-5634) — each performs strictly paired
`[i][j]`/`[j][i]` updates, so a symmetric matrix stays symmetric. -/
theorem full_graph_mutations_preserve_symmetry (g : Graph) (h : Symm g)
    (kf1 kf2 kf_obs : Nat) (remaining kfA kfB : List Nat) :
    Symm (newLMGraphInc g kf1 kf2) ∧
    Symm (pruneGraphUpdate g kf_obs remaining) ∧
    Symm (fuseMergeGraphUpdate g kfA kfB) := by
  refine ⟨bumpPair_symm g kf2 kf1 1 h, ?_, ?_⟩
  · exact foldl_preserves_symm _
      (fun gg x hgg => by
        by_cases hx : x ≠ kf_obs
        · simpa [hx] using bumpPair_symm gg kf_obs x (-1) hgg
        · simpa [hx] using hgg)
      remaining g h
  · exact foldl_preserves_symm _
      (fun gg jdx hgg =>
        foldl_preserves_symm _
          (fun g2 idx hg2 => bumpPair_symm g2 idx jdx 1 hg2) kfA gg hgg)
      kfB g h

/-- Witness for `full_graph_mutations_preserve_symmetry`: the zero matrix
with concrete indices and lists, read at concrete cells. -/
theorem full_graph_mutations_preserve_symmetry_witness :
    newLMGraphInc (fun _ _ => 0) 0 1 0 1 = newLMGraphInc (fun _ _ => 0) 0 1 1 0 ∧
    pruneGraphUpdate (fun _ _ => 0) 2 [0, 1] 0 2
      = pruneGraphUpdate (fun _ _ => 0) 2 [0, 1] 2 0 ∧
    fuseMergeGraphUpdate (fun _ _ => 0) [0, 1] [2, 3] 0 2
      = fuseMergeGraphUpdate (fun _ _ => 0) [0, 1] [2, 3] 2 0 :=
  ⟨(full_graph_mutations_preserve_symmetry (fun _ _ => 0) (fun _ _ => rfl)
      0 1 2 [0, 1] [0, 1] [2, 3]).1 0 1,
   (full_graph_mutations_preserve_symmetry (fun _ _ => 0) (fun _ _ => rfl)
      0 1 2 [0, 1] [0, 1] [2, 3]).2.1 0 2,
   (full_graph_mutations_preserve_symmetry (fun _ _ => 0) (fun _ _ => rfl)
      0 1 2 [0, 1] [0, 1] [2, 3]).2.2 0 2⟩

-- ---------------------------------------------------------------------------
-- C6
-- ---------------------------------------------------------------------------

/-- Effect of the observation-pruning decrement on the covisibility row of
the keyframe whose observation was removed: each remaining observing
keyframe's cell is decremented once per occurrence. -/
theorem pruneGraphUpdate_apply (g : Graph) (kf_obs i : Nat)
    (remaining : List Nat) (hi : i ≠ kf_obs) :
    pruneGraphUpdate g kf_obs remaining kf_obs i
      = g kf_obs i - (remaining.count i : Int) := by
  induction remaining generalizing g with
  | nil => simp [pruneGraphUpdate]
  | cons x xs ih =>
    have hstep : pruneGraphUpdate g kf_obs (x :: xs)
        = pruneGraphUpdate (if x ≠ kf_obs then bumpPair g kf_obs x (-1) else g)
            kf_obs xs := rfl
    rw [hstep]
    by_cases hx : x = kf_obs
    · subst hx
      rw [if_neg (by simp), ih g, List.count_cons_of_ne hi]
    · rw [if_pos hx, ih (bumpPair g kf_obs x (-1))]
      have hb : bumpPair g kf_obs x (-1) kf_obs i
          = g kf_obs i + (if kf_obs = kf_obs ∧ i = x then (-1 : Int) else 0)
            + (if kf_obs = x ∧ i = kf_obs then (-1 : Int) else 0) := rfl
      rw [hb]
      by_cases hix : i = x
      · subst hix
        rw [if_pos (⟨rfl, rfl⟩ : kf_obs = kf_obs ∧ i = i),
          if_neg (fun hc : kf_obs = i ∧ i = kf_obs => hi hc.2),
          List.count_cons_self]
        push_cast
        ring
      · rw [if_neg (fun hc : kf_obs = kf_obs ∧ i = x => hix hc.2),
          if_neg (fun hc : kf_obs = x ∧ i = kf_obs => hx hc.1.symm),
          List.count_cons_of_ne hix]
        ring

/-- The concrete landmark of the C6 counterexample: non-local, non-inlier,
anchored at keyframe 0, observed by the two keyframes 0 and 1. -/
def cexC6lm : MapLM := ⟨[5], [10, 11], [20, 21], [0, 1], false, false⟩

/-- Landmark-slot map of the C6 counterexample: slot 0 holds `cexC6lm`. -/
def cexC6map : Nat → Option MapLM := fun i => if i = 0 then some cexC6lm else none

/-- Covisibility matrix of the C6 counterexample: keyframes 0 and 1 share
exactly the one landmark `cexC6lm`. -/
def cexC6graph : Graph :=
  fun i j => if (i = 0 ∧ j = 1) ∨ (i = 1 ∧ j = 0) then 1 else 0

/-- Claim C6 counterexample: `removeBadMapLandmarks` (with
`max_kf_idx = 12`, `minLMObs = 2`) deletes the landmark jointly observed by
keyframes 0 and 1 — its slot becomes null — yet `full_graph[0][1]` keeps
the value 1 counting that landmark: the matrix is NOT decremented for the
pair that no longer shares it, contradicting the claim. -/
theorem removeBad_keeps_full_graph_cex :
    (removeBadMapLandmarksModel 12 2 cexC6map cexC6graph).1 0 = none ∧
    cexC6lm.kf_obs_list = [0, 1] ∧
    (removeBadMapLandmarksModel 12 2 cexC6map cexC6graph).2 0 1 = 1 ∧
    cexC6graph 0 1 = 1 := by
  decide

/-- Claim C6 as amended: the covisibility count is decremented, once per
remaining co-observing keyframe, by the observation-pruning step of the
local optimizer (`pruneGraphUpdate`, lines 2246-2254); whole-landmark
culling by `removeBadMapLandmarks` leaves the covisibility matrix entirely
unchanged. -/
theorem covis_decrement_prune_only (max_kf minObs : Int)
    (mp : Nat → Option MapLM) (g : Graph) (kf_obs i : Nat)
    (remaining : List Nat) (hi : i ≠ kf_obs) :
    (removeBadMapLandmarksModel max_kf minObs mp g).2 = g ∧
    pruneGraphUpdate g kf_obs remaining kf_obs i
      = g kf_obs i - (remaining.count i : Int) :=
  ⟨rfl, pruneGraphUpdate_apply g kf_obs i remaining hi⟩

/-- Witness for `covis_decrement_prune_only` at concrete inputs. -/
theorem covis_decrement_prune_only_witness :
    (removeBadMapLandmarksModel 12 2 (fun _ => none) (fun _ _ => 0)).2
      = (fun _ _ => 0) ∧
    pruneGraphUpdate (fun _ _ => 0) 0 [1, 2] 0 1
      = (fun _ _ => (0 : Int)) 0 1 - (([1, 2] : List Nat).count 1 : Int) :=
  covis_decrement_prune_only 12 2 (fun _ => none) (fun _ _ => 0) 0 1 [1, 2]
    (by decide)

-- ---------------------------------------------------------------------------
-- C8
-- ---------------------------------------------------------------------------

/-- Effect of the inner loop of the fusion-merge graph update (a fixed
`jdx` from `B`'s list, all of `A`'s pre-fusion keyframes). -/
theorem fuse_inner_formula (A : List Nat) (jdx : Nat) (g : Graph) (a b : Nat) :
    (A.foldl (fun g2 idx => bumpPair g2 idx jdx 1) g) a b
      = g a b + (A.count a : Int) * (if jdx = b then 1 else 0)
        + (A.count b : Int) * (if jdx = a then 1 else 0) := by
  induction A generalizing g with
  | nil => simp
  | cons x A ih =>
    rw [List.foldl_cons, ih (bumpPair g x jdx 1)]
    have hb : bumpPair g x jdx 1 a b
        = g a b + (if a = x ∧ b = jdx then (1 : Int) else 0)
          + (if a = jdx ∧ b = x then (1 : Int) else 0) := rfl
    rw [hb, List.count_cons, List.count_cons]
    simp only [beq_iff_eq, ite_and_mul]
    push_cast
    split_ifs <;> simp only [mul_one, mul_zero, one_mul, zero_mul] <;> omega

/-- Closed form of the fusion-merge covisibility update: cell `(a,b)` is
incremented once per pair of an occurrence of `a` in `A`'s pre-fusion
keyframes with an occurrence of `b` in `B`'s (and symmetrically). -/
theorem fuse_formula (kfA kfB : List Nat) (g : Graph) (a b : Nat) :
    fuseMergeGraphUpdate g kfA kfB a b
      = g a b + (kfA.count a : Int) * (kfB.count b : Int)
        + (kfA.count b : Int) * (kfB.count a : Int) := by
  induction kfB generalizing g with
  | nil => simp [fuseMergeGraphUpdate]
  | cons j B ih =>
    have hstep : fuseMergeGraphUpdate g kfA (j :: B)
        = fuseMergeGraphUpdate (kfA.foldl (fun g2 idx => bumpPair g2 idx j 1) g)
            kfA B := rfl
    rw [hstep, ih, fuse_inner_formula, List.count_cons, List.count_cons]
    simp only [beq_iff_eq]
    split_ifs <;> push_cast <;> ring

/-- Covisibility matrix of the C8 counterexample: landmark `A` is observed
by keyframes 0 and 1 (so the pair `(0,1)` already shares it, count 1),
landmark `B` by keyframes 1 and 2. -/
def cexC8graph : Graph :=
  fun i j => if (i = 0 ∧ j = 1) ∨ (i = 1 ∧ j = 0) then 1 else 0

/-- Claim C8 counterexample: fusing `B` (observed by keyframes `[1, 2]`)
into `A` (observed by keyframes `[0, 1]`) increments the cell `(0,1)` —
a pair that already shared landmark `A` before the fusion — from 1 to 2,
and increments the unused diagonal cell `(1,1)` from 0 to 2, contradicting
the claim that already-sharing pairs and the diagonal are not
incremented. -/
theorem fuse_merge_double_count_cex :
    cexC8graph 0 1 = 1 ∧
    fuseMergeGraphUpdate cexC8graph [0, 1] [1, 2] 0 1 = 2 ∧
    cexC8graph 1 1 = 0 ∧
    fuseMergeGraphUpdate cexC8graph [0, 1] [1, 2] 1 1 = 2 := by
  decide

/-- Claim C8 as amended: when `A`'s pre-fusion observing keyframes and
`B`'s observing keyframes are disjoint (and duplicate-free), the fusion
merge increments the covisibility matrix exactly once per keyframe pair
that newly shares the merged landmark (one keyframe from each side) and
leaves every other cell — including the diagonal — unchanged; without
disjointness the code increments already-sharing pairs and the diagonal,
as the counterexample shows. -/
theorem fuse_merge_disjoint_exact (g : Graph) (kfA kfB : List Nat)
    (hA : kfA.Nodup) (hB : kfB.Nodup) (hdis : ∀ x, x ∈ kfA → x ∉ kfB)
    (a b : Nat) :
    fuseMergeGraphUpdate g kfA kfB a b
      = g a b + (if (a ∈ kfA ∧ b ∈ kfB) ∨ (b ∈ kfA ∧ a ∈ kfB)
                 then 1 else 0) := by
  rw [fuse_formula]
  have ca : ∀ (y : Nat) (l : List Nat), l.Nodup →
      (l.count y : Int) = if y ∈ l then 1 else 0 := by
    intro y l hl
    by_cases hy : y ∈ l
    · simp [hy, List.count_eq_one_of_mem hl hy]
    · simp [hy, List.count_eq_zero_of_not_mem hy]
  rw [ca a kfA hA, ca b kfA hA, ca a kfB hB, ca b kfB hB]
  by_cases h1 : a ∈ kfA <;> by_cases h2 : b ∈ kfB <;>
    by_cases h3 : b ∈ kfA <;> by_cases h4 : a ∈ kfB <;>
    first
      | exact absurd h2 (hdis b h3)
      | exact absurd h4 (hdis a h1)
      | simp [h1, h2, h3, h4]

/-- Witness for `fuse_merge_disjoint_exact`: disjoint observer sets
`[0, 1]` and `[2, 3]` on the zero matrix, read at the newly-shared pair
`(0, 2)`. -/
theorem fuse_merge_disjoint_exact_witness :
    fuseMergeGraphUpdate (fun _ _ => 0) [0, 1] [2, 3] 0 2
      = (fun _ _ => (0 : Int)) 0 2
        + (if ((0 : Nat) ∈ [0, 1] ∧ (2 : Nat) ∈ [2, 3]) ∨
              ((2 : Nat) ∈ [0, 1] ∧ (0 : Nat) ∈ [2, 3])
           then 1 else 0) :=
  fuse_merge_disjoint_exact (fun _ _ => 0) [0, 1] [2, 3] (by decide) (by decide)
    (by intro x hx; fin_cases hx <;> decide) 0 2

-- ---------------------------------------------------------------------------
-- C9
-- ---------------------------------------------------------------------------

/-- Claim C9: the fusion merge of landmark `B` (slot `i1`) into landmark
`A` (slot `i0`): after the merge, slot `i0` holds the concatenation of all
four parallel lists, the length of each being the pre-fusion sum of `A`'s
and `B`'s, and slot `i1` is null.  The hypotheses are the parallel-lists
invariant on `B` (the loop iterates over `B.desc_list` and indexes the
other three lists at the same positions). -/
theorem loop_fuse_merge_parallel_lists (mp : Nat → Option MapLM)
    (i0 i1 : Nat) (A B : MapLM) (h0 : mp i0 = some A) (h1 : mp i1 = some B)
    (hne : i0 ≠ i1)
    (hobs : B.obs_list.length = B.desc_list.length)
    (hdir : B.dir_list.length = B.desc_list.length)
    (hkf : B.kf_obs_list.length = B.desc_list.length) :
    loopFuseMergeSlots true mp i0 i1 i0 = some (fuseConcat A B) ∧
    (fuseConcat A B).desc_list.length
      = A.desc_list.length + B.desc_list.length ∧
    (fuseConcat A B).obs_list.length
      = A.obs_list.length + B.obs_list.length ∧
    (fuseConcat A B).dir_list.length
      = A.dir_list.length + B.dir_list.length ∧
    (fuseConcat A B).kf_obs_list.length
      = A.kf_obs_list.length + B.kf_obs_list.length ∧
    loopFuseMergeSlots true mp i0 i1 i1 = none := by
  have hval : loopFuseMergeSlots true mp i0 i1
      = setSlot (setSlot mp i0 (some (fuseConcat A B))) i1 none := by
    unfold loopFuseMergeSlots
    rw [h0, h1]
    rfl
  refine ⟨?_, ?_, ?_, ?_, ?_, ?_⟩
  · rw [hval]
    simp [setSlot, hne]
  · simp [fuseConcat]
  · simp [fuseConcat, hobs]
  · simp [fuseConcat, hdir]
  · simp [fuseConcat, hkf]
  · rw [hval]
    simp [setSlot]

/-- Landmark `A` of the C9 witness: five observations. -/
def witC9A : MapLM :=
  ⟨[1, 2, 3, 4, 5], [1, 2, 3, 4, 5], [1, 2, 3, 4, 5], [0, 1, 2, 3, 4],
   true, true⟩

/-- Landmark `B` of the C9 witness: three observations. -/
def witC9B : MapLM := ⟨[6, 7, 8], [6, 7, 8], [6, 7, 8], [5, 6, 7], true, true⟩

/-- Slot map of the C9 witness: `A` at slot 0, `B` at slot 1. -/
def witC9map : Nat → Option MapLM :=
  fun i => if i = 0 then some witC9A else if i = 1 then some witC9B else none

/-- Witness for `loop_fuse_merge_parallel_lists`: merging a 3-observation
landmark into a 5-observation one yields exactly 8 observations and nulls
the source slot. -/
theorem loop_fuse_merge_parallel_lists_witness :
    loopFuseMergeSlots true witC9map 0 1 0 = some (fuseConcat witC9A witC9B) ∧
    (fuseConcat witC9A witC9B).desc_list.length
      = witC9A.desc_list.length + witC9B.desc_list.length ∧
    (fuseConcat witC9A witC9B).obs_list.length
      = witC9A.obs_list.length + witC9B.obs_list.length ∧
    (fuseConcat witC9A witC9B).dir_list.length
      = witC9A.dir_list.length + witC9B.dir_list.length ∧
    (fuseConcat witC9A witC9B).kf_obs_list.length
      = witC9A.kf_obs_list.length + witC9B.kf_obs_list.length ∧
    loopFuseMergeSlots true witC9map 0 1 1 = none :=
  loop_fuse_merge_parallel_lists witC9map 0 1 witC9A witC9B rfl rfl
    (by decide) rfl rfl rfl

-- ---------------------------------------------------------------------------
-- C10
-- ---------------------------------------------------------------------------

/-- Claim C10: the epipolar acceptance gate of `matchMap2KFLines` compares
the raw signed endpoint distances to the threshold without absolute values,
so any candidate whose two signed distances are both negative — of
arbitrarily large magnitude — passes the gate and an observation is
appended to the landmark; the gate bounds the error on one side only. -/
theorem line_epipolar_gate_one_sided (thr e0 e1 : ℚ) (hthr : 0 ≤ thr)
    (h0 : e0 < 0) (h1 : e1 < 0) :
    lineEpipolarGate thr e0 e1 = true ∧
    ∀ n : Nat, map2KFLineObsLen thr e0 e1 n = n + 1 := by
  have hg : lineEpipolarGate thr e0 e1 = true := by
    unfold lineEpipolarGate
    rw [decide_eq_true (lt_of_lt_of_le h0 hthr),
      decide_eq_true (lt_of_lt_of_le h1 hthr)]
    rfl
  exact ⟨hg, fun n => by simp [map2KFLineObsLen, hg]⟩

/-- Witness for `line_epipolar_gate_one_sided`: signed distances of a
million pixels below zero pass a threshold of 3 and extend a 7-observation
landmark to 8. -/
theorem line_epipolar_gate_one_sided_witness :
    lineEpipolarGate 3 (-1000000) (-1000000) = true ∧
    map2KFLineObsLen 3 (-1000000) (-1000000) 7 = 7 + 1 :=
  ⟨(line_epipolar_gate_one_sided 3 (-1000000) (-1000000) (by norm_num)
      (by norm_num) (by norm_num)).1,
   (line_epipolar_gate_one_sided 3 (-1000000) (-1000000) (by norm_num)
      (by norm_num) (by norm_num)).2 7⟩

end PLSLAM
